import Mathlib

/-!
Shallow embedding of the RISC-V (RV32I + system/CSR) instruction decoder
from `src/lib.rs`, `src/instructons.rs` and `src/registers.rs`.

Machine integers are modelled as `Nat` bit patterns: a Rust `u32` value is a
`Nat` below `2 ^ 32`, and the narrowing casts written in the source
(`as u16`, `as u8`) become explicit `% 2 ^ 16` / `% 2 ^ 8`.  Casts that only
reinterpret the 32-bit pattern (`as i32`, `as u32` on a 32-bit value) are the
identity on patterns and are dropped.  Where a signed reading of a pattern is
needed, `toInt32` interprets a 32-bit pattern in two's complement.

Rust code has three observable outcomes in this library: `Ok`, `Err` (the
`?` operator and explicit `Err(format!(..))` returns) and a panic
(`panic!`, `unreachable!`, `Result::unwrap` on an `Err`, and out-of-bounds
slice indexing).  `PResult` distinguishes all three.
-/

namespace Riscv

/-- Outcome of running a piece of Rust code: normal return, `Err` return, or
a panic (abort). -/
inductive PResult (α : Type) where
  | ok : α → PResult α
  | err : String → PResult α
  | panic : String → PResult α
deriving DecidableEq, Repr

def PResult.bind {α β : Type} : PResult α → (α → PResult β) → PResult β
  | .ok a, f => f a
  | .err e, _ => .err e
  | .panic m, _ => .panic m

instance : Monad PResult where
  pure := PResult.ok
  bind := PResult.bind

/-- The Rust `?` operator on a `Result`: an `Err` is returned to the caller
as an error value. -/
def liftE {α : Type} : Except String α → PResult α
  | .ok a => .ok a
  | .error e => .err e

/-- Rust `Result::unwrap()`: an `Err` aborts the process. -/
def unwrapE {α : Type} : Except String α → PResult α
  | .ok a => .ok a
  | .error e => .panic ("called unwrap on an Err value: " ++ e)

/-- Rust's `{:b}` binary formatting of an unsigned integer. -/
def binStr (n : Nat) : String := (Nat.toDigits 2 n).asString

/-- The 32 architectural registers, from `src/registers.rs` (`enum Register`,
discriminants 0–31). -/
inductive Register where
  | ZERO | RA | SP | GP | TP | T0 | T1 | T2
  | S0 | S1 | A0 | A1 | A2 | A3 | A4 | A5
  | A6 | A7 | S2 | S3 | S4 | S5 | S6 | S7
  | S8 | S9 | S10 | S11 | T3 | T4 | T5 | T6
deriving DecidableEq, Repr

/-- The numeric discriminant of each register (`Register::X as u8`). -/
def Register.toIndex : Register → Nat
  | .ZERO => 0 | .RA => 1 | .SP => 2 | .GP => 3
  | .TP => 4 | .T0 => 5 | .T1 => 6 | .T2 => 7
  | .S0 => 8 | .S1 => 9 | .A0 => 10 | .A1 => 11
  | .A2 => 12 | .A3 => 13 | .A4 => 14 | .A5 => 15
  | .A6 => 16 | .A7 => 17 | .S2 => 18 | .S3 => 19
  | .S4 => 20 | .S5 => 21 | .S6 => 22 | .S7 => 23
  | .S8 => 24 | .S9 => 25 | .S10 => 26 | .S11 => 27
  | .T3 => 28 | .T4 => 29 | .T5 => 30 | .T6 => 31

/-- `impl TryFrom<u8> for Register` from `src/registers.rs`: a match on the
byte value with a catch-all `Err("Invalid register")` arm. -/
def Register.tryFrom (value : Nat) : Except String Register :=
  match value with
  | 0 => .ok .ZERO
  | 1 => .ok .RA
  | 2 => .ok .SP
  | 3 => .ok .GP
  | 4 => .ok .TP
  | 5 => .ok .T0
  | 6 => .ok .T1
  | 7 => .ok .T2
  | 8 => .ok .S0
  | 9 => .ok .S1
  | 10 => .ok .A0
  | 11 => .ok .A1
  | 12 => .ok .A2
  | 13 => .ok .A3
  | 14 => .ok .A4
  | 15 => .ok .A5
  | 16 => .ok .A6
  | 17 => .ok .A7
  | 18 => .ok .S2
  | 19 => .ok .S3
  | 20 => .ok .S4
  | 21 => .ok .S5
  | 22 => .ok .S6
  | 23 => .ok .S7
  | 24 => .ok .S8
  | 25 => .ok .S9
  | 26 => .ok .S10
  | 27 => .ok .S11
  | 28 => .ok .T3
  | 29 => .ok .T4
  | 30 => .ok .T5
  | 31 => .ok .T6
  | _ => .error ("Invalid register")

/-- `enum InstructionWidth` from `src/instructons.rs`. -/
inductive InstructionWidth where
  | Bit32
deriving DecidableEq, Repr

set_option maxHeartbeats 1600000 in
/-- `enum Operation` from `src/instructons.rs`.  Constructor arguments keep
the source's field order.  Numeric fields are the stored bit patterns as
`Nat`; the snapshot's `lib.rs` and `instructons.rs` disagree on a few field
widths (e.g. branch immediates), so the values stored are exactly the ones
`lib.rs` computes, casts included. -/
inductive Operation where
  | LUI (rd : Register) (imm : Nat)
  | AUIPC (rd : Register) (imm : Nat)
  | JAL (rd : Register) (imm : Nat)
  | JALR (rd : Register) (rs1 : Register) (imm : Nat)
  | BEQ (imm : Nat) (rs1 : Register) (rs2 : Register)
  | BNE (imm : Nat) (rs1 : Register) (rs2 : Register)
  | BLT (imm : Nat) (rs1 : Register) (rs2 : Register)
  | BGE (imm : Nat) (rs1 : Register) (rs2 : Register)
  | BLTU (imm : Nat) (rs1 : Register) (rs2 : Register)
  | BGEU (imm : Nat) (rs1 : Register) (rs2 : Register)
  | LB (imm : Nat) (rs1 : Register) (rd : Register)
  | LH (imm : Nat) (rs1 : Register) (rd : Register)
  | LW (imm : Nat) (rs1 : Register) (rd : Register)
  | LBU (imm : Nat) (rs1 : Register) (rd : Register)
  | LHU (imm : Nat) (rs1 : Register) (rd : Register)
  | SB (imm : Nat) (rs2 : Register) (rs1 : Register)
  | SH (imm : Nat) (rs2 : Register) (rs1 : Register)
  | SW (imm : Nat) (rs2 : Register) (rs1 : Register)
  | ADDI (imm : Nat) (rs1 : Register) (rd : Register)
  | SLTI (imm : Nat) (rs1 : Register) (rd : Register)
  | SLTIU (imm : Nat) (rs1 : Register) (rd : Register)
  | XORI (imm : Nat) (rs1 : Register) (rd : Register)
  | ORI (imm : Nat) (rs1 : Register) (rd : Register)
  | ANDI (imm : Nat) (rs1 : Register) (rd : Register)
  | SLLI (shamt : Nat) (rs1 : Register) (rd : Register)
  | SRLI (shamt : Nat) (rs1 : Register) (rd : Register)
  | SRAI (shamt : Nat) (rs1 : Register) (rd : Register)
  | ADD (rs2 : Register) (rs1 : Register) (rd : Register)
  | SUB (rs2 : Register) (rs1 : Register) (rd : Register)
  | SLL (rs2 : Register) (rs1 : Register) (rd : Register)
  | SLT (rs2 : Register) (rs1 : Register) (rd : Register)
  | SLTU (rs2 : Register) (rs1 : Register) (rd : Register)
  | XOR (rs2 : Register) (rs1 : Register) (rd : Register)
  | SRL (rs2 : Register) (rs1 : Register) (rd : Register)
  | SRA (rs2 : Register) (rs1 : Register) (rd : Register)
  | OR (rs2 : Register) (rs1 : Register) (rd : Register)
  | AND (rs2 : Register) (rs1 : Register) (rd : Register)
  | FENCE
  | FENCE_I
  | ECALL
  | EBREAK
  | MRET
  | CSRRW (csr : Nat) (rs1 : Register) (rd : Register)
  | CSRRS (csr : Nat) (rs1 : Register) (rd : Register)
  | CSRRC (csr : Nat) (rs1 : Register) (rd : Register)
  | CSRRWI (csr : Nat) (zimm : Nat) (rd : Register)
  | CSRRSI (csr : Nat) (zimm : Nat) (rd : Register)
  | CSRRCI (csr : Nat) (zimm : Nat) (rd : Register)
deriving DecidableEq, Repr

/-- `struct Instruction` from `src/instructons.rs`. -/
structure Instruction where
  width : InstructionWidth
  operation : Operation
deriving DecidableEq, Repr

/-- Model of the external helper `bitutils::sign_extend32(data, size)`:
shift the low `size` bits to the top of a 32-bit word and arithmetic-shift
them back down, i.e. `((data << (32 - size)) as i32) >> (32 - size)`,
returned as a 32-bit pattern. -/
def sign_extend32 (data size : Nat) : Nat :=
  if (data <<< (32 - size)) % 2 ^ 32 < 2 ^ 31 then
    ((data <<< (32 - size)) % 2 ^ 32) >>> (32 - size)
  else ((data <<< (32 - size)) % 2 ^ 32) >>> (32 - size) + (2 ^ 32 - 2 ^ size)

/-- Two's-complement reading of a 32-bit pattern. -/
def toInt32 (pattern : Nat) : Int :=
  if pattern < 2 ^ 31 then (pattern : Int) else (pattern : Int) - 2 ^ 32

/-! The field extractions written as `let` bindings at the top of
`parse_32bit_operation` in `src/lib.rs`, plus the per-arm register-field and
branch-immediate expressions, as functions of the instruction word. -/

/-- `instruction & 0b1111111`. -/
def opcode (instruction : Nat) : Nat := instruction &&& 0b1111111

/-- `(instruction & (0b111 << 12)) >> 12`. -/
def funct3 (instruction : Nat) : Nat := (instruction &&& (0b111 <<< 12)) >>> 12

/-- `(instruction & (0b1111111 << 25)) >> 25`. -/
def funct7 (instruction : Nat) : Nat :=
  (instruction &&& (0b1111111 <<< 25)) >>> 25

/-- `sign_extend32(instruction >> 20, 12)`. -/
def imm (instruction : Nat) : Nat := sign_extend32 (instruction >>> 20) 12

/-- `(instruction & (0b11111 << 20)) >> 20`. -/
def shamt (instruction : Nat) : Nat := (instruction &&& (0b11111 <<< 20)) >>> 20

/-- `instruction & 0xFFFFF000`. -/
def imm_big (instruction : Nat) : Nat := instruction &&& 0xFFFFF000

/-- The J-type immediate `imm_big_shuffled` from `src/lib.rs` lines 41–48. -/
def imm_big_shuffled (instruction : Nat) : Nat :=
  sign_extend32
    ((((instruction &&& (0b1 <<< 31)) >>> (31 - 20))
        ||| ((instruction &&& (0b1111111111 <<< 21)) >>> (30 - 10))
        ||| ((instruction &&& (0b1 <<< 20)) >>> (20 - 11))
        ||| (instruction &&& (0b11111111 <<< 12)))
      &&& 0xFFFFFFFE)
    21

/-- The S-type immediate `imm_store` from `src/lib.rs` lines 50–51: a raw
concatenation of bits [31:25] and [11:7], with no sign extension. -/
def imm_store (instruction : Nat) : Nat :=
  ((instruction &&& (0b11111 <<< 7)) >>> 7)
    ||| ((instruction &&& (0b1111111 <<< 25)) >>> 20)

/-- The B-type immediate computed inside the BRANCH arm,
`src/lib.rs` lines 244–250. -/
def branch_imm (instruction : Nat) : Nat :=
  sign_extend32
    (((instruction &&& (0b1 <<< 31)) >>> 19)
        ||| ((instruction &&& (0b111111 <<< 25)) >>> 20)
        ||| ((instruction &&& (0b1111 <<< 8)) >>> 7)
        ||| ((instruction &&& (0b1 <<< 7)) <<< 4))
    13

/-- `(instruction & (0b11111 << 7)) >> 7`, the rd field. -/
def rd_bits (instruction : Nat) : Nat := (instruction &&& (0b11111 <<< 7)) >>> 7

/-- `(instruction & (0b11111 << 15)) >> 15`, the rs1 field. -/
def rs1_bits (instruction : Nat) : Nat :=
  (instruction &&& (0b11111 <<< 15)) >>> 15

/-- `(instruction & (0b11111 << 20)) >> 20`, the rs2 field. -/
def rs2_bits (instruction : Nat) : Nat :=
  (instruction &&& (0b11111 <<< 20)) >>> 20

/-- `parse_32bit_operation` from `src/lib.rs`.  The Rust `match` on the
opcode (and the inner integer matches) become chains of equality tests kept
in the source's arm order; `?` becomes `liftE`, `.try_into().unwrap()`
becomes `unwrapE`, `panic!` and `unreachable!` become `PResult.panic`. -/
def parse_32bit_operation (instruction : Nat) : PResult Operation :=
  if opcode instruction = 0b0110011 then do
    -- OP: rs1 [19:15] rs2 [24:20] rd [11:7]
    let rd ← liftE (Register.tryFrom (rd_bits instruction))
    let rs1 ← liftE (Register.tryFrom (rs1_bits instruction))
    let rs2 ← liftE (Register.tryFrom (rs2_bits instruction))
    if funct3 instruction = 0b000 then
      -- add/sub
      if funct7 instruction = 0b0000000 then pure (Operation.ADD rs2 rs1 rd)
      else if funct7 instruction = 0b0100000 then pure (Operation.SUB rs2 rs1 rd)
      else PResult.err ("Invalid funct7 " ++ binStr (funct7 instruction))
    else if funct3 instruction = 0b001 then
      if funct7 instruction = 0b0000000 then pure (Operation.SLL rs2 rs1 rd)
      else PResult.err ("Invalid funct7 " ++ binStr (funct7 instruction))
    else if funct3 instruction = 0b010 then
      if funct7 instruction = 0b0000000 then pure (Operation.SLT rs2 rs1 rd)
      else PResult.err ("Invalid funct7 " ++ binStr (funct7 instruction))
    else if funct3 instruction = 0b011 then
      if funct7 instruction = 0b0000000 then pure (Operation.SLTU rs2 rs1 rd)
      else PResult.err ("Invalid funct7 " ++ binStr (funct7 instruction))
    else if funct3 instruction = 0b100 then
      if funct7 instruction = 0b0000000 then pure (Operation.XOR rs2 rs1 rd)
      else PResult.err ("Invalid funct7 " ++ binStr (funct7 instruction))
    else if funct3 instruction = 0b101 then
      if funct7 instruction = 0b0000000 then pure (Operation.SRL rs2 rs1 rd)
      else if funct7 instruction = 0b0100000 then pure (Operation.SRA rs2 rs1 rd)
      else PResult.err ("Invalid funct7 " ++ binStr (funct7 instruction))
    else if funct3 instruction = 0b110 then
      if funct7 instruction = 0b0000000 then pure (Operation.OR rs2 rs1 rd)
      else PResult.err ("Invalid funct7 " ++ binStr (funct7 instruction))
    else if funct3 instruction = 0b111 then
      if funct7 instruction = 0b0000000 then pure (Operation.AND rs2 rs1 rd)
      else PResult.err ("Invalid funct7 " ++ binStr (funct7 instruction))
    else PResult.err ("Invalid funct3 " ++ binStr (funct3 instruction))
  else if opcode instruction = 0b0010011 then do
    -- OP_IMM
    let rd ← liftE (Register.tryFrom (rd_bits instruction))
    let rs1 ← liftE (Register.tryFrom (rs1_bits instruction))
    if funct3 instruction = 0b000 then
      -- ADDI (imm stored `as i32`, same 32-bit pattern)
      pure (Operation.ADDI (imm instruction) rs1 rd)
    else if funct3 instruction = 0b010 then
      pure (Operation.SLTI (imm instruction % 2 ^ 16) rs1 rd)
    else if funct3 instruction = 0b011 then
      pure (Operation.SLTIU (imm instruction % 2 ^ 16) rs1 rd)
    else if funct3 instruction = 0b100 then
      pure (Operation.XORI (imm instruction % 2 ^ 16) rs1 rd)
    else if funct3 instruction = 0b110 then
      pure (Operation.ORI (imm instruction % 2 ^ 16) rs1 rd)
    else if funct3 instruction = 0b111 then
      pure (Operation.ANDI (imm instruction % 2 ^ 16) rs1 rd)
    else if funct3 instruction = 0b001 then
      pure (Operation.SLLI (shamt instruction % 2 ^ 8) rs1 rd)
    else if funct3 instruction = 0b101 then
      -- SRLI SRAI
      if funct7 instruction = 0b0000000 then
        pure (Operation.SRLI (shamt instruction % 2 ^ 8) rs1 rd)
      else if funct7 instruction = 0b0100000 then
        pure (Operation.SRAI (shamt instruction % 2 ^ 8) rs1 rd)
      else PResult.err ("Invalid funct7 " ++ binStr (funct7 instruction))
    else PResult.err ("Invalid funct3 " ++ binStr (funct3 instruction))
  else if opcode instruction = 0b0110111 then do
    -- LUI
    let rd ← liftE (Register.tryFrom (rd_bits instruction))
    pure (Operation.LUI rd (imm_big instruction))
  else if opcode instruction = 0b0010111 then do
    -- AUIPC
    let rd ← liftE (Register.tryFrom (rd_bits instruction))
    pure (Operation.AUIPC rd (imm_big instruction))
  else if opcode instruction = 0b1101111 then do
    -- JAL
    let rd ← liftE (Register.tryFrom (rd_bits instruction))
    pure (Operation.JAL rd (imm_big_shuffled instruction))
  else if opcode instruction = 0b1100111 then do
    -- JALR
    let rd ← liftE (Register.tryFrom (rd_bits instruction))
    let rs1 ← liftE (Register.tryFrom (rs1_bits instruction))
    pure (Operation.JALR rd rs1 (imm instruction))
  else if opcode instruction = 0b1100011 then do
    -- BRANCH
    let rd ← unwrapE (Register.tryFrom (rd_bits instruction))
    let rs1 ← unwrapE (Register.tryFrom (rs1_bits instruction))
    let rs2 ← unwrapE (Register.tryFrom (rs2_bits instruction))
    if funct3 instruction = 0b000 then
      pure (Operation.BEQ (branch_imm instruction) rs1 rs2)
    else if funct3 instruction = 0b001 then
      pure (Operation.BNE (branch_imm instruction) rs1 rs2)
    else if funct3 instruction = 0b100 then
      pure (Operation.BLT (branch_imm instruction) rs1 rs2)
    else if funct3 instruction = 0b101 then
      pure (Operation.BGE (branch_imm instruction) rs1 rs2)
    else if funct3 instruction = 0b110 then
      pure (Operation.BLTU (branch_imm instruction) rs1 rs2)
    else if funct3 instruction = 0b111 then
      pure (Operation.BGEU (branch_imm instruction) rs1 rs2)
    else if funct3 instruction = 0b011 then
      pure (Operation.JALR rd rs1 (branch_imm instruction))
    else if funct3 instruction = 0b010 then
      pure (Operation.JAL rd (branch_imm instruction))
    else PResult.panic ("internal error: entered unreachable code")
  else if opcode instruction = 0b0000011 then do
    -- LOAD
    let imm16 := imm instruction % 2 ^ 16
    let rd ← unwrapE (Register.tryFrom (rd_bits instruction))
    let rs1 ← unwrapE (Register.tryFrom (rs1_bits instruction))
    if funct3 instruction = 0b000 then pure (Operation.LB imm16 rs1 rd)
    else if funct3 instruction = 0b001 then pure (Operation.LH imm16 rs1 rd)
    else if funct3 instruction = 0b010 then pure (Operation.LW imm16 rs1 rd)
    else if funct3 instruction = 0b100 then pure (Operation.LBU imm16 rs1 rd)
    else if funct3 instruction = 0b101 then pure (Operation.LHU imm16 rs1 rd)
    else PResult.panic ("Unsupported funct3 " ++ binStr (funct3 instruction))
  else if opcode instruction = 0b0100011 then do
    -- STORE
    let rs1 ← unwrapE (Register.tryFrom (rs1_bits instruction))
    let rs2 ← unwrapE (Register.tryFrom (rs2_bits instruction))
    let imm16 := imm_store instruction % 2 ^ 16
    if funct3 instruction = 0b000 then pure (Operation.SB imm16 rs2 rs1)
    else if funct3 instruction = 0b001 then pure (Operation.SH imm16 rs2 rs1)
    else if funct3 instruction = 0b010 then pure (Operation.SW imm16 rs2 rs1)
    else PResult.panic ("Unsupported funct3 " ++ binStr (funct3 instruction))
  else if opcode instruction = 0b1110011 then do
    -- SYSTEM
    let rd ← liftE (Register.tryFrom (rd_bits instruction))
    let rs1 ← liftE (Register.tryFrom (rs1_bits instruction))
    let csr := imm instruction % 2 ^ 16
    if instruction = 807403635 then
      -- mret, basically magic number
      pure Operation.MRET
    else
      if funct3 instruction = 0b001 then pure (Operation.CSRRW csr rs1 rd)
      else if funct3 instruction = 0b010 then pure (Operation.CSRRS csr rs1 rd)
      else if funct3 instruction = 0b011 then pure (Operation.CSRRC csr rs1 rd)
      else if funct3 instruction = 0b101 then
        pure (Operation.CSRRWI csr (rs1_bits instruction % 2 ^ 8) rd)
      else if funct3 instruction = 0b110 then
        pure (Operation.CSRRSI csr (rs1_bits instruction % 2 ^ 8) rd)
      else if funct3 instruction = 0b111 then
        pure (Operation.CSRRCI csr (rs1_bits instruction % 2 ^ 8) rd)
      else PResult.panic ("Unsupported funct3 " ++ binStr (funct3 instruction))
  else PResult.err ("Invalid opcode! " ++ binStr (opcode instruction))

/-- Rust slice indexing `input[i]`: out of bounds is a panic. -/
def indexByte (input : List Nat) (i : Nat) : PResult Nat :=
  match input[i]? with
  | some b => .ok b
  | none => .panic ("index out of bounds")

/-- `u32::from_le_bytes`. -/
def from_le_bytes (b0 b1 b2 b3 : Nat) : Nat :=
  b0 ||| (b1 <<< 8) ||| (b2 <<< 16) ||| (b3 <<< 24)

/-- The public entry point `parse` from `src/lib.rs`: indexes
`input[0] .. input[3]` (panicking if the slice is shorter), assembles a
little-endian word and runs `parse_32bit_operation` on it. -/
def parse (input : List Nat) : PResult Instruction := do
  let b0 ← indexByte input 0
  let b1 ← indexByte input 1
  let b2 ← indexByte input 2
  let b3 ← indexByte input 3
  let operation ← parse_32bit_operation (from_le_bytes b0 b1 b2 b3)
  pure { width := InstructionWidth.Bit32, operation := operation }

/-! ### Helper observers used to state claims without binders in witnesses -/

/-- The operation carried by an `ok` result, if any. -/
def okOp : PResult Operation → Option Operation
  | .ok op => some op
  | .err _ => none
  | .panic _ => none

/-- The register carried by an `Ok` result of `Register::try_from`. -/
def regOk : Except String Register → Option Register
  | .ok r => some r
  | .error _ => none

/-- The `imm` field of the operations that carry one. -/
def Operation.immField : Operation → Option Nat
  | .LUI _ i => some i
  | .AUIPC _ i => some i
  | .JAL _ i => some i
  | .JALR _ _ i => some i
  | .BEQ i _ _ => some i
  | .BNE i _ _ => some i
  | .BLT i _ _ => some i
  | .BGE i _ _ => some i
  | .BLTU i _ _ => some i
  | .BGEU i _ _ => some i
  | .LB i _ _ => some i
  | .LH i _ _ => some i
  | .LW i _ _ => some i
  | .LBU i _ _ => some i
  | .LHU i _ _ => some i
  | .SB i _ _ => some i
  | .SH i _ _ => some i
  | .SW i _ _ => some i
  | .ADDI i _ _ => some i
  | .SLTI i _ _ => some i
  | .SLTIU i _ _ => some i
  | .XORI i _ _ => some i
  | .ORI i _ _ => some i
  | .ANDI i _ _ => some i
  | _ => none

/-- The bare mnemonic of an operation, used to state which variant a decode
produced without mentioning its operands. -/
inductive Mnemonic where
  | LUI | AUIPC | JAL | JALR | BEQ | BNE | BLT | BGE | BLTU | BGEU
  | LB | LH | LW | LBU | LHU | SB | SH | SW
  | ADDI | SLTI | SLTIU | XORI | ORI | ANDI | SLLI | SRLI | SRAI
  | ADD | SUB | SLL | SLT | SLTU | XOR | SRL | SRA | OR | AND
  | FENCE | FENCE_I | ECALL | EBREAK | MRET
  | CSRRW | CSRRS | CSRRC | CSRRWI | CSRRSI | CSRRCI
deriving DecidableEq, Repr

def Operation.mnemonic : Operation → Mnemonic
  | .LUI .. => .LUI
  | .AUIPC .. => .AUIPC
  | .JAL .. => .JAL
  | .JALR .. => .JALR
  | .BEQ .. => .BEQ
  | .BNE .. => .BNE
  | .BLT .. => .BLT
  | .BGE .. => .BGE
  | .BLTU .. => .BLTU
  | .BGEU .. => .BGEU
  | .LB .. => .LB
  | .LH .. => .LH
  | .LW .. => .LW
  | .LBU .. => .LBU
  | .LHU .. => .LHU
  | .SB .. => .SB
  | .SH .. => .SH
  | .SW .. => .SW
  | .ADDI .. => .ADDI
  | .SLTI .. => .SLTI
  | .SLTIU .. => .SLTIU
  | .XORI .. => .XORI
  | .ORI .. => .ORI
  | .ANDI .. => .ANDI
  | .SLLI .. => .SLLI
  | .SRLI .. => .SRLI
  | .SRAI .. => .SRAI
  | .ADD .. => .ADD
  | .SUB .. => .SUB
  | .SLL .. => .SLL
  | .SLT .. => .SLT
  | .SLTU .. => .SLTU
  | .XOR .. => .XOR
  | .SRL .. => .SRL
  | .SRA .. => .SRA
  | .OR .. => .OR
  | .AND .. => .AND
  | .FENCE => .FENCE
  | .FENCE_I => .FENCE_I
  | .ECALL => .ECALL
  | .EBREAK => .EBREAK
  | .MRET => .MRET
  | .CSRRW .. => .CSRRW
  | .CSRRS .. => .CSRRS
  | .CSRRC .. => .CSRRC
  | .CSRRWI .. => .CSRRWI
  | .CSRRSI .. => .CSRRSI
  | .CSRRCI .. => .CSRRCI

/-! ### Bit-extraction arithmetic -/

@[simp]
theorem PResult.ok_bind {α β : Type} (a : α) (f : α → PResult β) :
    PResult.ok a >>= f = f a := rfl

@[simp]
theorem PResult.err_bind {α β : Type} (e : String) (f : α → PResult β) :
    (PResult.err e : PResult α) >>= f = PResult.err e := rfl

@[simp]
theorem PResult.panic_bind {α β : Type} (m : String) (f : α → PResult β) :
    (PResult.panic m : PResult α) >>= f = PResult.panic m := rfl


@[simp]
theorem liftE_ok {α : Type} (a : α) : liftE (.ok a) = .ok a := rfl

@[simp]
theorem liftE_error {α : Type} (e : String) :
    (liftE (.error e) : PResult α) = .err e := rfl

@[simp]
theorem unwrapE_ok {α : Type} (a : α) : unwrapE (.ok a) = .ok a := rfl

@[simp]
theorem unwrapE_error {α : Type} (e : String) :
    (unwrapE (.error e) : PResult α)
      = .panic ("called unwrap on an Err value: " ++ e) := rfl

/-- Masking with a field of `w` ones at offset `k` isolates that field in
place. -/
theorem and_mask_shl (x w k : ℕ) :
    x &&& (2 ^ w - 1) <<< k = x / 2 ^ k % 2 ^ w * 2 ^ k := by
  have key : x &&& (2 ^ w - 1) <<< k = (x >>> k % 2 ^ w) <<< k := by
    apply Nat.eq_of_testBit_eq
    intro i
    by_cases h : k ≤ i
    · have hik : k + (i - k) = i := by omega
      simp only [Nat.testBit_and, Nat.testBit_shiftLeft,
        Nat.testBit_mod_two_pow, Nat.testBit_shiftRight,
        Nat.testBit_two_pow_sub_one, ge_iff_le, hik]
      cases hx : x.testBit i <;> cases hw : decide (i - k < w) <;>
        simp [h, hx, hw]
    · simp [Nat.testBit_and, Nat.testBit_shiftLeft, ge_iff_le, h]
  rw [key, Nat.shiftLeft_eq, Nat.shiftRight_eq_div_pow]

theorem extract_field (x w k j : ℕ) (h : j ≤ k) :
    (x &&& (2 ^ w - 1) <<< k) >>> j = x / 2 ^ k % 2 ^ w * 2 ^ (k - j) := by
  rw [and_mask_shl, Nat.shiftRight_eq_div_pow]
  have hk : (2 : ℕ) ^ k = 2 ^ (k - j) * 2 ^ j := by
    rw [← pow_add]
    congr 1
    omega
  calc x / 2 ^ k % 2 ^ w * 2 ^ k / 2 ^ j
      = x / 2 ^ k % 2 ^ w * (2 ^ (k - j) * 2 ^ j) / 2 ^ j := by
        rw [← hk]
    _ = x / 2 ^ k % 2 ^ w * 2 ^ (k - j) := by
        rw [← Nat.mul_assoc, Nat.mul_div_cancel _ (Nat.two_pow_pos j)]

/-- A disjoint bitwise or is an addition: if `a` fits below bit `k`, then
`a ||| b * 2 ^ k` is the number with high part `b` and low part `a`. -/
theorem or_mul_eq_add (a b k : ℕ) (h : a < 2 ^ k) :
    a ||| b * 2 ^ k = b * 2 ^ k + a := by
  have hmod : (a ||| b * 2 ^ k) % 2 ^ k = a := by
    apply Nat.eq_of_testBit_eq
    intro i
    rw [← Nat.shiftLeft_eq]
    by_cases hi : i < k
    · simp [Nat.testBit_mod_two_pow, Nat.testBit_or, Nat.testBit_shiftLeft,
        hi, Nat.not_le.mpr hi]
    · have ha : a.testBit i = false :=
        Nat.testBit_lt_two_pow
          (lt_of_lt_of_le h (Nat.pow_le_pow_right (by norm_num) (by omega)))
      simp [Nat.testBit_mod_two_pow, hi, ha]
  have hdiv : (a ||| b * 2 ^ k) / 2 ^ k = b := by
    rw [← Nat.shiftRight_eq_div_pow]
    apply Nat.eq_of_testBit_eq
    intro i
    rw [← Nat.shiftLeft_eq]
    have ha : a.testBit (k + i) = false :=
      Nat.testBit_lt_two_pow
        (lt_of_lt_of_le h (Nat.pow_le_pow_right (by norm_num) (by omega)))
    simp [Nat.testBit_shiftRight, Nat.testBit_or, Nat.testBit_shiftLeft, ha,
      Nat.le_add_right]
  calc a ||| b * 2 ^ k
      = 2 ^ k * ((a ||| b * 2 ^ k) / 2 ^ k) + (a ||| b * 2 ^ k) % 2 ^ k :=
        (Nat.div_add_mod _ _).symm
    _ = b * 2 ^ k + a := by rw [hdiv, hmod, Nat.mul_comm]

/-! ### The field extractions in closed `div`/`mod` form -/

theorem opcode_eq (x : ℕ) : opcode x = x % 128 := by
  have h : (0b1111111 : ℕ) = 2 ^ 7 - 1 := by norm_num
  rw [opcode, h, Nat.and_pow_two_sub_one_eq_mod]

theorem funct3_eq (x : ℕ) : funct3 x = x / 4096 % 8 := by
  have h := extract_field x 3 12 12 (Nat.le_refl 12)
  simpa [funct3] using h

theorem funct7_eq (x : ℕ) : funct7 x = x / 33554432 % 128 := by
  have h := extract_field x 7 25 25 (Nat.le_refl 25)
  simpa [funct7] using h

theorem rd_bits_eq (x : ℕ) : rd_bits x = x / 128 % 32 := by
  have h := extract_field x 5 7 7 (Nat.le_refl 7)
  simpa [rd_bits] using h

theorem rs1_bits_eq (x : ℕ) : rs1_bits x = x / 32768 % 32 := by
  have h := extract_field x 5 15 15 (Nat.le_refl 15)
  simpa [rs1_bits] using h

theorem rs2_bits_eq (x : ℕ) : rs2_bits x = x / 1048576 % 32 := by
  have h := extract_field x 5 20 20 (Nat.le_refl 20)
  simpa [rs2_bits] using h

theorem imm_store_eq (x : ℕ) :
    imm_store x = x / 33554432 % 128 * 32 + x / 128 % 32 := by
  have hlow := extract_field x 5 7 7 (Nat.le_refl 7)
  have hhigh := extract_field x 7 25 20 (by norm_num)
  rw [imm_store]
  norm_num at hlow hhigh
  rw [hlow, hhigh, show (32 : ℕ) = 2 ^ 5 by norm_num]
  exact or_mul_eq_add _ _ 5 (Nat.mod_lt _ (by norm_num))

theorem funct3_lt (x : ℕ) : funct3 x < 8 := by
  rw [funct3_eq]
  exact Nat.mod_lt _ (by norm_num)

theorem rd_bits_lt (x : ℕ) : rd_bits x < 32 := by
  rw [rd_bits_eq]
  exact Nat.mod_lt _ (by norm_num)

theorem rs1_bits_lt (x : ℕ) : rs1_bits x < 32 := by
  rw [rs1_bits_eq]
  exact Nat.mod_lt _ (by norm_num)

theorem rs2_bits_lt (x : ℕ) : rs2_bits x < 32 := by
  rw [rs2_bits_eq]
  exact Nat.mod_lt _ (by norm_num)

/-! ### Register table lemmas -/

/-- `Register::try_from` succeeds on every 5-bit value and round-trips with
the discriminant. -/
theorem tryFrom_of_lt (v : ℕ) (h : v < 32) :
    ∃ r, Register.tryFrom v = .ok r ∧ r.toIndex = v := by
  interval_cases v <;> exact ⟨_, rfl, rfl⟩

/-- `Register::try_from` hits the catch-all error arm above 31. -/
theorem tryFrom_of_ge (v : ℕ) (h : 31 < v) :
    Register.tryFrom v = .error ("Invalid register") := by
  unfold Register.tryFrom
  split <;> first | rfl | omega

example : parse_32bit_operation 0x00000013
    = .ok (Operation.ADDI 0 .ZERO .ZERO) := by decide
example : parse_32bit_operation 807403635 = .ok Operation.MRET := by decide
example : parse_32bit_operation 0x00100073
    = .panic ("Unsupported funct3 0") := by decide
example : parse_32bit_operation 0x00000063
    = .ok (Operation.BEQ 0 .ZERO .ZERO) := by decide
example : parse_32bit_operation 0x80000023
    = .ok (Operation.SB 2048 .ZERO .ZERO) := by decide
example : parse [0] = .panic ("index out of bounds") := by decide
example : parse_32bit_operation 0x0000007F
    = .err ("Invalid opcode! 1111111") := by decide


/-! ### Claim theorems -/

/-- C1: the spec asserts that decoding any 32-bit word returns `Ok` or a
typed error and never aborts.  The code contradicts this (and the doc
comment of `parse`, which promises `Err` for invalid instructions): the word
`0x00003003` has the recognized LOAD opcode (`0b0000011`) and funct3
`0b011`, and the LOAD arm's catch-all is `panic!("Unsupported funct3 ..")`,
so decoding aborts instead of returning an error value. -/
theorem load_unsupported_funct3_panics :
    parse_32bit_operation 0x00003003 = .panic ("Unsupported funct3 11") := by
  decide

/-- C2: the spec asserts `0x00100073` (EBREAK) decodes to `EBREAK {}`.  The
code never constructs `Operation::EBREAK`: the word reaches the SYSTEM arm
with funct3 = `0b000`, which falls into `panic!("Unsupported funct3 0")`. -/
theorem ebreak_word_panics :
    parse_32bit_operation 0x00100073 = .panic ("Unsupported funct3 0") := by
  decide

/-- C3: the spec asserts a STORE-class word with funct3 = `0b011` fails with
a returned `InvalidFunct3` error.  The code instead panics: `0x00003023` has
opcode `0b0100011` (STORE) and funct3 `0b011`, and the STORE arm's
catch-all is `panic!("Unsupported funct3 ..")`, an abort rather than a
returned error value. -/
theorem store_funct3_011_panics :
    parse_32bit_operation 0x00003023 = .panic ("Unsupported funct3 11") := by
  decide

/-- C8: register resolution is total on 0–31 and round-trips with the
discriminant, and every byte value above 31 is rejected with the
invalid-register error. -/
theorem register_resolve_roundtrip :
    (∀ i : ℕ, i ≤ 31 →
      (regOk (Register.tryFrom i)).map Register.toIndex = some i) ∧
    (∀ v : ℕ, 31 < v → v < 256 →
      Register.tryFrom v = .error ("Invalid register")) := by
  constructor
  · intro i hi
    interval_cases i <;> rfl
  · intro v hv _
    exact tryFrom_of_ge v hv

/-- Witness for C8 at index 31 and byte value 32. -/
theorem register_resolve_roundtrip_witness :
    (regOk (Register.tryFrom 31)).map Register.toIndex = some 31 ∧
    Register.tryFrom 32 = .error ("Invalid register") :=
  ⟨register_resolve_roundtrip.1 31 (by decide),
   register_resolve_roundtrip.2 32 (by decide) (by decide)⟩

/-- C9: the word `807403635` (`0x30200073`), the fixed MRET bit pattern, is
matched against the whole instruction before funct3 dispatch and decodes to
the zero-operand `MRET` variant, even though its funct3 bits are zero — a
funct3 value which the SYSTEM dispatch would otherwise panic on. -/
theorem mret_exact_word :
    parse_32bit_operation 807403635 = .ok Operation.MRET ∧
    funct3 807403635 = 0 := by
  decide

/-- C10 counterexample: the claim says an input of fewer than 4 bytes is
rejected (returned) without crashing; in fact `parse` indexes `input[1]` on
the 1-byte input `[0]` and panics with an index-out-of-bounds abort — it
does not return at all (the result is a `panic`, not an `err` or `ok`). -/
theorem parse_short_input_cex :
    parse [0] = .panic ("index out of bounds") := by
  decide

/-- C10 amended: for every input of length < 4, `parse` panics with an
index-out-of-bounds abort while reading the missing byte, rather than
returning; there is no length check before the `input[0] .. input[3]`
reads. -/
theorem parse_short_input_panics (input : List Nat)
    (h : input.length < 4) :
    parse input = .panic ("index out of bounds") := by
  rcases input with _ | ⟨a, _ | ⟨b, _ | ⟨c, _ | ⟨d, rest⟩⟩⟩⟩
  · rfl
  · rfl
  · rfl
  · rfl
  · simp [List.length] at h
    omega

/-- Witness for C10 at the empty input. -/
theorem parse_short_input_panics_witness :
    ([] : List Nat).length < 4 ∧
    parse [] = .panic ("index out of bounds") :=
  ⟨by decide, parse_short_input_panics [] (by decide)⟩


@[simp]
theorem pure_eq_ok {α : Type} (a : α) : (pure a : PResult α) = .ok a := rfl

/-- C5: under the BRANCH opcode every funct3 value decodes successfully —
funct3 `0b010` is re-routed to a `JAL` and `0b011` to a `JALR`, both built
from the branch-format immediate, alongside the six real branch mnemonics;
no funct3 value is rejected with an error (the `unreachable!` arm cannot
fire since funct3 is a 3-bit field). -/
theorem branch_funct3_dispatch (x : ℕ) (hop : opcode x = 0b1100011) :
    (okOp (parse_32bit_operation x)).map Operation.mnemonic =
      some (if funct3 x = 0b000 then .BEQ
        else if funct3 x = 0b001 then .BNE
        else if funct3 x = 0b100 then .BLT
        else if funct3 x = 0b101 then .BGE
        else if funct3 x = 0b110 then .BLTU
        else if funct3 x = 0b111 then .BGEU
        else if funct3 x = 0b011 then .JALR
        else .JAL) ∧
    (okOp (parse_32bit_operation x)).bind Operation.immField
      = some (branch_imm x) := by
  obtain ⟨rd, hrd, _⟩ := tryFrom_of_lt (rd_bits x) (rd_bits_lt x)
  obtain ⟨rs1, hrs1, _⟩ := tryFrom_of_lt (rs1_bits x) (rs1_bits_lt x)
  obtain ⟨rs2, hrs2, _⟩ := tryFrom_of_lt (rs2_bits x) (rs2_bits_lt x)
  have h8 := funct3_lt x
  have hcases : funct3 x = 0 ∨ funct3 x = 1 ∨ funct3 x = 2 ∨ funct3 x = 3 ∨
      funct3 x = 4 ∨ funct3 x = 5 ∨ funct3 x = 6 ∨ funct3 x = 7 := by omega
  unfold parse_32bit_operation
  rw [hop]
  norm_num
  rw [hrd, hrs1, hrs2]
  rcases hcases with h | h | h | h | h | h | h | h <;>
    simp [h, okOp, Operation.mnemonic, Operation.immField]

/-- Witness for C5 at the word 99 (`0x63`: BRANCH opcode, funct3 = 0). -/
theorem branch_funct3_dispatch_witness :
    (okOp (parse_32bit_operation 99)).map Operation.mnemonic =
      some (if funct3 99 = 0b000 then .BEQ
        else if funct3 99 = 0b001 then .BNE
        else if funct3 99 = 0b100 then .BLT
        else if funct3 99 = 0b101 then .BGE
        else if funct3 99 = 0b110 then .BLTU
        else if funct3 99 = 0b111 then .BGEU
        else if funct3 99 = 0b011 then .JALR
        else .JAL) ∧
    (okOp (parse_32bit_operation 99)).bind Operation.immField
      = some (branch_imm 99) :=
  branch_funct3_dispatch 99 (by decide)


/-- C4 counterexample: the word `0x80000023` (STORE, funct3 = 0, bit 31 set,
all other immediate-contributing bits clear) decodes to `SB` with stored
immediate `2048` — the raw zero-extended concatenation.  The claimed 12-bit
two's-complement sign extension of the concatenated field would be the
negative value `-2048`, whose 16-bit container pattern is `63488`; the
stored value is neither negative nor that pattern, refuting the claim at
this input. -/
theorem store_imm_not_sign_extended_cex :
    parse_32bit_operation 0x80000023
        = .ok (Operation.SB 2048 .ZERO .ZERO) ∧
    sign_extend32 (imm_store 0x80000023) 12 % 2 ^ 16 = 63488 ∧
    toInt32 (sign_extend32 (imm_store 0x80000023) 12) = -2048 ∧
    (2048 : ℕ) ≠ 63488 := by
  decide

/-- C4 amended: for every successfully decoded STORE-class word (funct3 in
{000, 001, 010}), the stored immediate equals the raw concatenation
`bits[31:25] * 32 + bits[11:7]`, zero-extended — it is strictly below 4096,
so it is never sign-extended before being stored (a word with bit 31 set
stores a positive value, not the corresponding negative one). -/
theorem store_imm_raw_concat (x : ℕ) (hop : opcode x = 0b0100011)
    (h3 : funct3 x < 3) :
    (okOp (parse_32bit_operation x)).bind Operation.immField
        = some (x / 33554432 % 128 * 32 + x / 128 % 32) ∧
    x / 33554432 % 128 * 32 + x / 128 % 32 < 4096 := by
  have hraw : imm_store x % 65536
      = x / 33554432 % 128 * 32 + x / 128 % 32 := by
    rw [imm_store_eq]
    apply Nat.mod_eq_of_lt
    have h1 : x / 33554432 % 128 < 128 := Nat.mod_lt _ (by norm_num)
    have h2 : x / 128 % 32 < 32 := Nat.mod_lt _ (by norm_num)
    omega
  obtain ⟨rs1, hrs1, _⟩ := tryFrom_of_lt (rs1_bits x) (rs1_bits_lt x)
  obtain ⟨rs2, hrs2, _⟩ := tryFrom_of_lt (rs2_bits x) (rs2_bits_lt x)
  have hcases : funct3 x = 0 ∨ funct3 x = 1 ∨ funct3 x = 2 := by omega
  constructor
  · unfold parse_32bit_operation
    rw [hop]
    norm_num
    rw [hrs1, hrs2]
    rcases hcases with h | h | h <;>
      simp [h, okOp, Operation.immField, hraw]
  · have h1 : x / 33554432 % 128 < 128 := Nat.mod_lt _ (by norm_num)
    have h2 : x / 128 % 32 < 32 := Nat.mod_lt _ (by norm_num)
    omega

/-- Witness for C4's amended theorem at the word `0x80000023`. -/
theorem store_imm_raw_concat_witness :
    (okOp (parse_32bit_operation 0x80000023)).bind Operation.immField
        = some (0x80000023 / 33554432 % 128 * 32 + 0x80000023 / 128 % 32) ∧
    0x80000023 / 33554432 % 128 * 32 + 0x80000023 / 128 % 32 < 4096 :=
  store_imm_raw_concat 0x80000023 (by decide) (by decide)


/-- C6: in a BRANCH-opcode word whose only set immediate-contributing bit is
bit 31 (the sign bit of the scattered B-type field), the reconstructed
branch offset is the most negative 13-bit even value, `-4096`. -/
theorem branch_imm_only_sign_bit (x : ℕ) (hop : opcode x = 0b1100011)
    (h31 : x.testBit 31 = true) (hmid : x / 2 ^ 25 % 64 = 0)
    (hlow : x / 2 ^ 8 % 16 = 0) (h7 : x.testBit 7 = false) :
    toInt32 (branch_imm x) = -4096 := by
  have e1 := extract_field x 1 31 19 (by norm_num)
  have e2 := extract_field x 6 25 20 (by norm_num)
  have e3 := extract_field x 4 8 7 (by norm_num)
  have e4 := and_mask_shl x 1 7
  rw [Nat.testBit_to_div_mod] at h31 h7
  have h31n := of_decide_eq_true h31
  have h7x := of_decide_eq_false h7
  norm_num at h31n h7x
  have h7n : x / 128 % 2 = 0 := by omega
  norm_num at e1 e2 e3 e4 hmid hlow
  unfold branch_imm
  norm_num
  rw [e1, e2, e3, e4, h31n, h7n, hmid, hlow]
  norm_num
  decide

/-- Witness for C6 at the word `0x80000063` (BRANCH opcode, bit 31 set, all
other immediate-contributing bits clear). -/
theorem branch_imm_only_sign_bit_witness :
    toInt32 (branch_imm 2147483747) = -4096 :=
  branch_imm_only_sign_bit 2147483747 (by decide) (by decide) (by decide)
    (by decide) (by decide)

/-- An even input to `sign_extend32 _ 21` yields an even 32-bit result: the
copied low bits survive the shift pair and the sign-fill only touches the
high bits. -/
theorem sign_extend32_21_even (v : ℕ) (hv : v % 2 = 0) :
    sign_extend32 v 21 % 2 = 0 := by
  have ht : v * 2048 % 4294967296 / 2048 = v % 2097152 := by
    rw [Nat.mul_comm, show (4294967296 : ℕ) = 2048 * 2097152 by norm_num,
      Nat.mul_mod_mul_left, Nat.mul_div_cancel_left _ (show 0 < 2048 by norm_num)]
  have hd : (2 : ℕ) ∣ 2097152 := by norm_num
  unfold sign_extend32
  rw [Nat.shiftLeft_eq, Nat.shiftRight_eq_div_pow]
  norm_num
  split
  · rw [ht, Nat.mod_mod_of_dvd _ hd, hv]
  · rw [Nat.add_mod, ht, Nat.mod_mod_of_dvd _ hd, hv]

/-- Bitwise and with an even mask gives an even result. -/
theorem and_even (a b : ℕ) (hb : b % 2 = 0) : (a &&& b) % 2 = 0 := by
  rcases Nat.mod_two_eq_zero_or_one (a &&& b) with h0 | h1
  · exact h0
  · rw [Nat.and_mod_two_eq_one] at h1
    omega

/-- C7: a JAL-opcode word with bit 31 set and all other
immediate-contributing bits clear reconstructs the most negative 21-bit jump
offset `-(1 <<< 20)`; and for every JAL-opcode word the reconstruction is
even — the `& 0xFFFFFFFE` mask forces bit 0 of the offset to 0. -/
theorem jal_imm_sign_and_even (x : ℕ) (hop : opcode x = 0b1101111) :
    (x.testBit 31 = true → x / 2 ^ 21 % 1024 = 0 → x.testBit 20 = false →
        x / 2 ^ 12 % 256 = 0 → toInt32 (imm_big_shuffled x) = -(2 ^ 20)) ∧
    imm_big_shuffled x % 2 = 0 := by
  constructor
  · intro h31 hmid h20 hlow
    have e1 := extract_field x 1 31 11 (by norm_num)
    have e2 := extract_field x 10 21 20 (by norm_num)
    have e3 := extract_field x 1 20 9 (by norm_num)
    have e4 := and_mask_shl x 8 12
    rw [Nat.testBit_to_div_mod] at h31 h20
    have h31n := of_decide_eq_true h31
    have h20x := of_decide_eq_false h20
    norm_num at h31n h20x
    have h20n : x / 1048576 % 2 = 0 := by omega
    norm_num at e1 e2 e3 e4 hmid hlow
    unfold imm_big_shuffled
    norm_num
    rw [e1, e2, e3, e4, h31n, h20n, hmid, hlow]
    norm_num
    decide
  · unfold imm_big_shuffled
    apply sign_extend32_21_even
    exact and_even _ _ (by norm_num)

/-- Witness for C7 at the word `0x8000006F` (JAL opcode, bit 31 set, all
other immediate-contributing bits clear). -/
theorem jal_imm_sign_and_even_witness :
    toInt32 (imm_big_shuffled 2147483759) = -(2 ^ 20) ∧
    imm_big_shuffled 2147483759 % 2 = 0 :=
  ⟨(jal_imm_sign_and_even 2147483759 (by decide)).1 (by decide) (by decide)
      (by decide) (by decide),
   (jal_imm_sign_and_even 2147483759 (by decide)).2⟩

end Riscv
